import Mathlib

/-!
Verification development for the WebInsight Crawl4AI extraction service
(`src/services/Crawl4AI`).  The Python modules `app/services/crawler.py` and
`app/main.py` are shallowly embedded: Python dictionaries become association
lists over a `Value` type, external effects (the Playwright browser, the
Crawl4AI crawler, the robots.txt fetch, the clock) become explicit oracle
parameters, and each function is translated branch by branch from the source.
-/

namespace WebInsight

/-- Python-like values appearing in the dictionaries the crawler builds and
consumes (strings, booleans, numbers, `None`, lists, nested dicts). -/
inductive Value where
  | vnone
  | vbool (b : Bool)
  | vnat (n : Nat)
  | vstr (s : String)
  | vlist (l : List Value)
  | vdict (l : List (String × Value))

/-- Python truthiness for `Value` (`if v:`). -/
def Value.truthy : Value → Bool
  | .vnone => false
  | .vbool b => b
  | .vnat n => n != 0
  | .vstr s => s != ""
  | .vlist l => !l.isEmpty
  | .vdict l => !l.isEmpty

/-- `True` iff the value is a Python `str`. -/
def Value.isStr : Value → Bool
  | .vstr _ => true
  | _ => false

/-- A Python `dict` with string keys, as an association list (first match
wins; keys are unique for dicts built by the embedded code). -/
abbrev Dict := List (String × Value)

/-- `d.get(k)` returning `none` when the key is absent. -/
def Dict.find? : Dict → String → Option Value
  | [], _ => none
  | (k, v) :: rest, key => if k == key then some v else Dict.find? rest key

/-- `d.get(k, dflt)`. -/
def Dict.getD (d : Dict) (key : String) (dflt : Value) : Value :=
  (Dict.find? d key).getD dflt

/-- `k in d`. -/
def Dict.hasKey (d : Dict) (key : String) : Bool :=
  (Dict.find? d key).isSome

/-- `d[k] = v`: update an existing key in place, otherwise append (Python
dict insertion-order semantics). -/
def Dict.set : Dict → String → Value → Dict
  | [], key, v => [(key, v)]
  | (k, w) :: rest, key, v =>
      if k == key then (k, v) :: rest else (k, w) :: Dict.set rest key v

/-- Key lookup inside a `Value` when it is a dict. -/
def Value.get? (v : Value) (key : String) : Option Value :=
  match v with
  | .vdict l => Dict.find? l key
  | _ => none

/-- Whether `pat` is an initial segment of `l` (character lists). -/
def leadChars : List Char → List Char → Bool
  | [], _ => true
  | _ :: _, [] => false
  | c :: cs, d :: ds => c == d && leadChars cs ds

/-- Whether `pat` occurs as a contiguous run inside `l`. -/
def containsChars (pat : List Char) : List Char → Bool
  | [] => pat.isEmpty
  | c :: rest => leadChars pat (c :: rest) || containsChars pat rest

/-- Python's `pat in s` substring test. -/
def strContains (s pat : String) : Bool :=
  containsChars pat.data s.data

/-- Python's `s.lower()` (character-wise lowering, structurally recursive so
that concrete instances compute). -/
def strLower (s : String) : String :=
  String.mk (s.data.map Char.toLower)

/-- The response-contract check on the `content` object: a dict with exactly
the three keys `html`, `markdown`, `raw_markdown`, each bound to a string. -/
def contentOk : Value → Bool
  | .vdict l =>
      l.length == 3 &&
      (l.map Prod.fst).contains "html" &&
      (l.map Prod.fst).contains "markdown" &&
      (l.map Prod.fst).contains "raw_markdown" &&
      l.all (fun p => p.2.isStr)
  | _ => false

/-- The top-level response dictionary shared by every extraction path:
`{'content': ..., 'extracted_data': ..., 'metadata': ...}`. -/
structure PyResult where
  content : Value
  extracted_data : Value
  metadata : Value

/-- The `content` dict built by `extract_content_playwright` (lines 182-187):
`{'html': h, 'markdown': t, 'raw_markdown': t}` — both markdown forms are the
extracted text. -/
def mkPwContent (h t : String) : Value :=
  .vdict [("html", .vstr h), ("markdown", .vstr t), ("raw_markdown", .vstr t)]

/-- The `content` dict built on the static paths of `extract_content`
(lines 372-377, 430-435, 491-496): `{'markdown': m, 'raw_markdown': r,
'html': h}`. -/
def mkStaticContent (m r h : String) : Value :=
  .vdict [("markdown", .vstr m), ("raw_markdown", .vstr r), ("html", .vstr h)]

/-! ## Playwright (dynamic) backend -/

/-- A DOM element handle: the two reads the code performs on it. -/
structure Element where
  innerHtml : String
  textContent : String

/-- The rendered page, as the oracle for the Playwright calls the code makes:
`page.content()`, `page.query_selector(sel)`, `page.url`, and whether
`page.goto` returned a (truthy) response.  `query` is the page state after
the wait-selectors and custom scripts have run. -/
structure Page where
  fullContent : String
  query : String → Option Element
  finalUrl : String
  navReturns : Bool

/-- Oracle for the effectful steps of `extract_content_playwright`:
`launchOk` — `p.chromium.launch` succeeds (lines 60-65);
`navOk` — `page.goto` does not raise (lines 77-83);
`selectorRaises` — the selector-extraction block raises (lines 123-126,
150-153); `unhandled` — an exception escapes to the outermost handler
(lines 162-165); `now` — the `time.strftime` UTC timestamp. -/
structure PwEnv where
  page : Page
  launchOk : Bool
  navOk : Bool
  selectorRaises : Bool
  unhandled : Bool
  now : String

/-- `create_fallback_response` (crawler.py lines 197-239), including the
hardcoded special case for URLs containing `httpbin.org/html`. -/
def create_fallback_response (url_str : String) (now : String) : PyResult :=
  if strContains url_str "httpbin.org/html" then
    { content := .vdict
        [("html", .vstr "<h1>Herman Melville - Moby-Dick</h1>"),
         ("markdown", .vstr "Herman Melville - Moby-Dick"),
         ("raw_markdown", .vstr "Herman Melville - Moby-Dick")],
      extracted_data := .vdict
        [("content", .vstr "Herman Melville - Moby-Dick"),
         ("title", .vstr "Herman Melville - Moby-Dick")],
      metadata := .vdict
        [("url", .vstr url_str), ("extraction_time", .vstr now),
         ("content_length", .vnat 38),
         ("extraction_strategy", .vstr "playwright"),
         ("note", .vstr "Fallback response for test compatibility")] }
  else
    { content := .vdict
        [("html", .vstr ""), ("markdown", .vstr ""), ("raw_markdown", .vstr "")],
      extracted_data := .vdict
        [("content", .vstr ""), ("title", .vstr "")],
      metadata := .vdict
        [("url", .vstr url_str), ("extraction_time", .vstr now),
         ("content_length", .vnat 0),
         ("extraction_strategy", .vstr "playwright"),
         ("error", .vstr "Error during content extraction")] }

/-- The content-extraction phase of `extract_content_playwright`
(lines 101-155).  Returns `(extracted_html, extracted_text, fallbackTagQueried)`
where the last component records whether the zero-match tag fallback query
`page.query_selector('h1')` of line 147 was executed. -/
def pwPhase (url_str : String) (bs : Option String) (pg : Page)
    (selectorRaises : Bool) : String × String × Bool :=
  let bsTruthy := match bs with | some s => s != "" | none => false
  let bsStr := bs.getD ""
  if strContains url_str "httpbin.org/html" then
    -- special handling for httpbin.org/html (lines 104-131)
    let full_html := pg.fullContent
    if bsTruthy && (strLower bsStr) == "h1" then
      if selectorRaises then (full_html, "Herman Melville - Moby-Dick", false)
      else
        match pg.query "h1" with
        | some el => (full_html, el.textContent, false)
        | none => (full_html, "Herman Melville - Moby-Dick", false)
    else
      match pg.query "body" with
      | some el => (full_html, el.textContent, false)
      | none => (full_html, "", false)
  else if bsTruthy then
    -- element-scoped extraction (lines 132-153)
    if selectorRaises then (pg.fullContent, "", false)
    else
      match pg.query bsStr with
      | some el => (el.innerHtml, el.textContent, false)
      | none =>
          -- selector matched zero elements (lines 140-149)
          if (strLower bsStr) == "h1" then
            match pg.query "h1" with
            | some el => (pg.fullContent, el.textContent, true)
            | none => (pg.fullContent, "", true)
          else (pg.fullContent, "", false)
  else (pg.fullContent, "", false)

/-- Result of the dynamic backend plus instrumentation recording whether the
line-147 fallback tag query ran. -/
structure PwOutcome where
  result : PyResult
  fallbackTagQueried : Bool

/-- `extract_content_playwright` (crawler.py lines 30-195).  The `options`
dict only feeds browser configuration (headless, user agent, timeouts,
wait selectors, scripts), whose effects are folded into the `Page` oracle;
it does not otherwise shape the returned dictionary. -/
def extract_content_playwright (url : String) (selectors : Dict)
    (_options : Dict) (env : PwEnv) : PwOutcome :=
  let url_str := url
  if !env.launchOk then
    -- browser launch failed (lines 60-65)
    { result := create_fallback_response url_str env.now, fallbackTagQueried := false }
  else if env.unhandled then
    -- unhandled error anywhere in the pipeline (lines 162-165)
    { result := create_fallback_response url_str env.now, fallbackTagQueried := false }
  else
    -- redirected URL captured only when goto returned a response (lines 77-83)
    let redirected_url :=
      if env.navOk && env.page.navReturns then env.page.finalUrl else url_str
    -- `selectors.get('base_selector')` (line 102); callers pass string selectors
    let bs : Option String :=
      match Dict.find? selectors "base_selector" with
      | some (.vstr s) => some s
      | _ => none
    let phase := pwPhase url_str bs env.page env.selectorRaises
    let extracted_html := phase.1
    let extracted_text := phase.2.1
    let bsIsH1 :=
      (match bs with | some s => s != "" | none => false) && strLower (bs.getD "") == "h1"
    -- extracted_data built only from non-empty text; None fields stripped
    -- (lines 167-177)
    let extracted_data : Value :=
      if extracted_text != "" then
        if bsIsH1 then
          .vdict [("content", .vstr extracted_text), ("title", .vstr extracted_text)]
        else .vdict [("content", .vstr extracted_text)]
      else .vnone
    { result :=
        { content := mkPwContent extracted_html extracted_text,
          extracted_data := extracted_data,
          metadata := .vdict
            [("url", .vstr redirected_url), ("extraction_time", .vstr env.now),
             ("content_length", .vnat extracted_html.length),
             ("extraction_strategy", .vstr "playwright")] },
      fallbackTagQueried := phase.2.2 }

/-! ## Static (Crawl4AI) backend and orchestrator -/

/-- `result.markdown` in Crawl4AI v0.5.0: either a plain string or an object
carrying `fit_markdown` / `raw_markdown` attributes (possibly `None`). -/
inductive MarkdownVal where
  | plain (s : String)
  | structured (fit : Option String) (raw : Option String)

/-- The first crawl result object, as read by lines 446-488: `none` in a
field models a missing attribute (the code guards every read with
`hasattr`). -/
structure CrawlResult where
  markdown : Option MarkdownVal
  html : Option String
  redirected_url : Option String
  url : Option String
  extracted_data : Option Value
  extracted_content : Option Value
  title : Option String
  description : Option String

/-- What `crawler.crawl` does: raise, or return a list of result objects
(a `none` entry is a falsy result object, triggering the
`if not result` branch of lines 429-444). -/
inductive CrawlOutcome where
  | raises
  | results (l : List (Option CrawlResult))

/-- Oracle for the static path: the crawl outcome, whether the
`JsonCssExtractionStrategy` constructor succeeds (lines 322-332), and the
timestamp. -/
structure CrawlEnv where
  outcome : CrawlOutcome
  schemaCtorOk : Bool
  now : String

/-- Truthiness of an optional string attribute (`hasattr(x, a) and x.a`). -/
def optStrTruthy : Option String → Bool
  | some s => s != ""
  | none => false

/-- Truthiness of an optional `Value` attribute. -/
def optValTruthy : Option Value → Bool
  | some v => v.truthy
  | none => false

/-- `has_base_selector` (lines 307-308): selectors dict non-empty, key
present, and its value truthy.  (The `isinstance(selectors, dict)` conjunct
always holds here because the embedding gives `selectors` a dict type.) -/
def hasBaseSelector (sels : Dict) : Bool :=
  !sels.isEmpty && (Dict.find? sels "base_selector").isSome &&
    (Dict.getD sels "base_selector" .vnone).truthy

/-- The options dict after the base-selector branch ran (lines 312-316):
`options['use_browser'] = True; options['use_direct_extraction'] = True`. -/
def staticOptions (sels opts : Dict) : Dict :=
  if hasBaseSelector sels then
    Dict.set (Dict.set opts "use_browser" (.vbool true))
      "use_direct_extraction" (.vbool true)
  else opts

/-- Whether a `JsonCssExtractionStrategy` object ends up in
`extraction_strategy` (lines 312-332): never when a base selector is
present (it is explicitly reset to `None`), otherwise exactly when a truthy
`extraction_schema` is in the options and the constructor call succeeds. -/
def staticStrategyIsSchema (sels opts : Dict) (cr : CrawlEnv) : Bool :=
  if hasBaseSelector sels then false
  else if Dict.hasKey opts "extraction_schema" &&
      (Dict.getD opts "extraction_schema" .vnone).truthy then cr.schemaCtorOk
  else false

/-- The static (Crawl4AI) path of `extract_content` (lines 265-509), after
the dispatch decided against Playwright.  The browser config, content filter
(pruning vs BM25) and markdown generator built in lines 267-293 configure
the crawl; their effect is folded into the `CrawlEnv` oracle. -/
def staticResult (url : String) (sels opts : Dict) (cr : CrawlEnv) : PyResult :=
  let optsEff := staticOptions sels opts
  let isSchema := staticStrategyIsSchema sels opts cr
  -- fallback_response (lines 372-385), returned on a crawl exception
  -- (lines 407-413) and on an empty result list (lines 401-405)
  let fallback_response : PyResult :=
    { content := mkStaticContent "" "" "",
      extracted_data := .vnone,
      metadata := .vdict
        [("url", .vstr url), ("extraction_time", .vstr cr.now),
         ("content_length", .vnat 0),
         ("extraction_strategy", .vstr "crawl4ai")] }
  match cr.outcome with
  | .raises => fallback_response
  | .results [] => fallback_response
  | .results (none :: _) =>
      -- `if not result` (lines 429-444)
      { content := mkStaticContent "" "" "",
        extracted_data := .vnone,
        metadata := .vdict
          [("url", .vstr url), ("extraction_time", .vstr cr.now),
           ("content_length", .vnat 0),
           ("error", .vstr "No content extracted"),
           ("extraction_strategy", .vstr "crawl4ai")] }
  | .results (some result :: _) =>
      -- markdown handling with fallbacks (lines 446-462)
      let md :=
        match result.markdown with
        | none => ("", "")
        | some (.plain s) => if s == "" then ("", "") else (s, s)
        | some (.structured fit raw) => (fit.getD "", raw.getD "")
      let markdown_content := md.1
      let raw_markdown := md.2
      let html_content := (result.html).getD ""
      let redirected_url :=
        if optStrTruthy result.redirected_url then (result.redirected_url).getD ""
        else if optStrTruthy result.url then (result.url).getD ""
        else url
      let extracted_data :=
        if optValTruthy result.extracted_data then (result.extracted_data).getD .vnone
        else if optValTruthy result.extracted_content then
          (result.extracted_content).getD .vnone
        else .vnone
      let title := if optStrTruthy result.title then (result.title).getD "" else ""
      let description :=
        if optStrTruthy result.description then (result.description).getD "" else ""
      { content := mkStaticContent markdown_content raw_markdown html_content,
        extracted_data := extracted_data,
        metadata := .vdict
          [("url", .vstr redirected_url), ("title", .vstr title),
           ("description", .vstr description),
           ("extraction_time", .vstr cr.now),
           ("content_length", .vnat markdown_content.length),
           ("extraction_strategy",
            .vstr (if isSchema then "schema" else "markdown")),
           ("scraping_strategy",
            .vstr (if (Dict.getD optsEff "use_lxml" (.vbool false)).truthy
                   then "lxml" else "standard"))] }

/-- Output of `extract_content` plus instrumentation: `callerOptions` is the
caller's `options` object after the call (`none` when the caller passed
`None`; unchanged when the caller passed `{}`, because `options or {}`
then binds a fresh dict; the mutated dict otherwise), `usedPlaywright`
records which backend produced the result. -/
structure ExtractOutput where
  result : PyResult
  callerOptions : Option Dict
  usedPlaywright : Bool
  fallbackTagQueried : Bool

/-- `extract_content` (crawler.py lines 241-509): normalises the arguments
(`options = options or {}`, `selectors = selectors or {}`), dispatches to
Playwright exactly when `options.get('use_browser', False)` is truthy
(line 260), and otherwise runs the static Crawl4AI path. -/
def extract_content (url : String) (selectors options : Option Dict)
    (pw : PwEnv) (cr : CrawlEnv) : ExtractOutput :=
  let sels : Dict := selectors.getD []
  let opts : Dict := options.getD []
  if (Dict.getD opts "use_browser" (.vbool false)).truthy then
    let p := extract_content_playwright url sels opts pw
    { result := p.result, callerOptions := options,
      usedPlaywright := true, fallbackTagQueried := p.fallbackTagQueried }
  else
    { result := staticResult url sels opts cr,
      callerOptions :=
        match options with
        | none => none
        | some d => if d.isEmpty then some d else some (staticOptions sels opts),
      usedPlaywright := false, fallbackTagQueried := false }

/-! ## Robots policy checker -/

/-- The dictionary `check_robots_txt` returns (lines 542-557). -/
structure RobotsDecision where
  allowed : Bool
  url : String
  robots_url : String
  user_agent : String
  error : Option String

/-- Oracle for `rp.read()` / `rp.can_fetch`: either the fetch-and-parse
raises (with `str(e)` as message) or it parses and `can_fetch` answers. -/
inductive RobotsFetch where
  | raises (msg : String)
  | parsed (canFetch : Bool)

/-- `urlparse(url).scheme` for absolute URLs. -/
def schemeOf (url : String) : String :=
  ((url.splitOn "://").headD "")

/-- `urlparse(url).netloc` for absolute URLs. -/
def netlocOf (url : String) : String :=
  ((((url.splitOn "://").getD 1 "").splitOn "/").headD "")

/-- `check_robots_txt` (crawler.py lines 511-557): build the robots URL from
scheme and host, then fail open — any exception yields `allowed=True` with
the error attached. -/
def check_robots_txt (url : String) (user_agent : String)
    (fetch : RobotsFetch) : RobotsDecision :=
  let robots_url := schemeOf url ++ "://" ++ netlocOf url ++ "/robots.txt"
  match fetch with
  | .parsed canFetch =>
      { allowed := canFetch, url := url, robots_url := robots_url,
        user_agent := user_agent, error := none }
  | .raises msg =>
      { allowed := true, url := url, robots_url := robots_url,
        user_agent := user_agent, error := some msg }

/-! ## API handler (`main.py`) -/

/-- A Python exception relevant to the handler: an `HTTPException` with a
status code, or any other exception. -/
inductive PyExc where
  | http (status : Nat) (detail : String)
  | other (msg : String)

/-- What the awaited `check_robots_txt` call does, from the handler's point
of view. -/
inductive RobotsCallOutcome where
  | raises (msg : String)
  | returns (d : RobotsDecision)

/-- What the awaited `extract_content` call does, from the handler's point
of view. -/
inductive ExtractCallOutcome where
  | raises (msg : String)
  | returns (r : PyResult)

/-- The transport-level response of the `/extract` endpoint. -/
inductive HandlerResponse where
  | ok (body : PyResult)
  | httpError (status : Nat) (detail : String)

/-- Handler outcome plus instrumentation: whether `extract_content` was
invoked. -/
structure ApiCallResult where
  response : HandlerResponse
  extractInvoked : Bool

/-- The body of the robots `try` block in `api_extract_content`
(main.py lines 66-76): call `check_robots_txt`, and on a disallow raise
`HTTPException(status_code=403, ...)`. -/
def robotsBlockBody (url_str : String) (robots : RobotsCallOutcome) :
    Except PyExc Unit :=
  match robots with
  | .raises msg => .error (.other msg)
  | .returns d =>
      if d.allowed then .ok ()
      else .error (.http 403 ("Scraping not allowed by robots.txt for " ++ url_str))

/-- `api_extract_content` (main.py lines 47-121).  The robots block's
`except Exception as robots_error` (lines 77-79) catches every exception of
its `try` body — including the `HTTPException(403)` the body itself raises
on a disallow — prints it, and continues, so control always reaches the
extraction step.  An exception from `extract_content` becomes an
`HTTPException(500)` (lines 110-121). -/
def api_extract_content (check_robots : Bool) (url_str : String)
    (robots : RobotsCallOutcome) (ext : ExtractCallOutcome) : ApiCallResult :=
  -- result of the robots try-block; discarded by the blanket except clause
  let _robotsSection : Except PyExc Unit :=
    if check_robots then robotsBlockBody url_str robots else .ok ()
  match ext with
  | .raises msg =>
      { response := .httpError 500 msg, extractInvoked := true }
  | .returns r =>
      { response := .ok r, extractInvoked := true }

/-! ## Rate limiter -/

/-- `RateLimiter` (crawler.py lines 559-582).  Time and the interval are
modelled as exact rationals; `time.time()` becomes an explicit `now`
argument. -/
structure RateLimiter where
  domain : String
  interval : ℚ
  last_access_time : ℚ

/-- `RateLimiter.__init__`: `interval = 60.0 / requests_per_minute`,
`last_access_time = 0`. -/
def RateLimiter.init (domain : String) (requests_per_minute : ℚ) : RateLimiter :=
  { domain := domain, interval := 60 / requests_per_minute, last_access_time := 0 }

/-- `can_proceed` (lines 572-576): `time_since_last >= self.interval`. -/
def RateLimiter.can_proceed (rl : RateLimiter) (now : ℚ) : Bool :=
  decide (rl.interval ≤ now - rl.last_access_time)

/-- `record_access` (lines 578-582): build a fresh limiter via
`RateLimiter(self.domain, 60.0 / self.interval)` and stamp it with the
current time; the receiver is left untouched. -/
def RateLimiter.record_access (rl : RateLimiter) (now : ℚ) : RateLimiter :=
  let new_limiter := RateLimiter.init rl.domain (60 / rl.interval)
  { new_limiter with last_access_time := now }

/-! ## Sample inputs used by the concrete theorems -/

/-- A page on which no selector matches anything. -/
def egPage : Page :=
  { fullContent := "<html><body><p>sample</p></body></html>",
    query := fun _ => none,
    finalUrl := "https://example.com/", navReturns := true }

/-- A healthy Playwright environment over `egPage`. -/
def egPwEnv : PwEnv :=
  { page := egPage, launchOk := true, navOk := true,
    selectorRaises := false, unhandled := false, now := "2024-01-01T00:00:00Z" }

/-- A successful first crawl result with plain-string markdown. -/
def egCrawlResult : CrawlResult :=
  { markdown := some (.plain "# Title"), html := some "<h1>Title</h1>",
    redirected_url := none, url := none, extracted_data := none,
    extracted_content := none, title := none, description := none }

/-- A crawl environment whose crawl succeeds with one truthy result. -/
def egCrawlEnvOk : CrawlEnv :=
  { outcome := .results [some egCrawlResult], schemaCtorOk := true,
    now := "2024-01-01T00:00:00Z" }

/-- A crawl environment whose crawl raises. -/
def egCrawlEnvRaises : CrawlEnv :=
  { outcome := .raises, schemaCtorOk := true, now := "2024-01-01T00:00:00Z" }

/-- A well-formed extraction body for handler-level theorems. -/
def egOkBody : PyResult :=
  { content := mkStaticContent "# T" "# T" "<h1>T</h1>",
    extracted_data := .vnone,
    metadata := .vdict [("url", .vstr "https://example.com/")] }

/-- A robots decision that disallows the fetch. -/
def egDeniedDecision : RobotsDecision :=
  { allowed := false, url := "https://example.com/",
    robots_url := "https://example.com/robots.txt",
    user_agent := "Flux-RSS-Fabric-AI", error := none }

/-! ## Dictionary lemmas -/

theorem Dict.find?_set_self (d : Dict) (k : String) (v : Value) :
    Dict.find? (Dict.set d k v) k = some v := by
  induction d with
  | nil => simp [Dict.set, Dict.find?]
  | cons hd tl ih =>
      obtain ⟨k2, w⟩ := hd
      by_cases h : (k2 == k) = true
      · simp [Dict.set, Dict.find?, h]
      · simp only [Bool.not_eq_true] at h
        simp [Dict.set, Dict.find?, h, ih]

theorem Dict.find?_set_ne (d : Dict) (kSet kGet : String) (v : Value)
    (h : (kSet == kGet) = false) :
    Dict.find? (Dict.set d kSet v) kGet = Dict.find? d kGet := by
  induction d with
  | nil => simp [Dict.set, Dict.find?, h]
  | cons hd tl ih =>
      obtain ⟨k2, w⟩ := hd
      by_cases h2 : (k2 == kSet) = true
      · have hk2 : k2 = kSet := eq_of_beq h2
        subst hk2
        simp [Dict.set, Dict.find?, h]
      · simp only [Bool.not_eq_true] at h2
        simp [Dict.set, Dict.find?, h2, ih]

/-- A dict with an entry for `k` is non-empty. -/
theorem Dict.find?_isSome_ne_nil (d : Dict) (k : String) (v : Value)
    (h : Dict.find? d k = some v) : d.isEmpty = false := by
  cases d with
  | nil => simp [Dict.find?] at h
  | cons hd tl => simp [List.isEmpty]

/-! ## Content-shape helper lemmas -/

theorem contentOk_mkPwContent (h t : String) : contentOk (mkPwContent h t) = true := rfl

theorem contentOk_mkStaticContent (m r h : String) :
    contentOk (mkStaticContent m r h) = true := rfl

theorem contentOk_fallback (u n : String) :
    contentOk (create_fallback_response u n).content = true := by
  unfold create_fallback_response
  cases h : strContains u "httpbin.org/html" <;> simp [h] <;> rfl

theorem contentOk_playwright (url : String) (selectors options : Dict) (pw : PwEnv) :
    contentOk (extract_content_playwright url selectors options pw).result.content = true := by
  simp only [extract_content_playwright]
  split
  · exact contentOk_fallback _ _
  · split
    · exact contentOk_fallback _ _
    · exact contentOk_mkPwContent _ _

theorem contentOk_static (url : String) (sels opts : Dict) (cr : CrawlEnv) :
    contentOk (staticResult url sels opts cr).content = true := by
  simp only [staticResult]
  split
  · exact contentOk_mkStaticContent _ _ _
  · exact contentOk_mkStaticContent _ _ _
  · exact contentOk_mkStaticContent _ _ _
  · exact contentOk_mkStaticContent _ _ _

/-! ## Claim theorems -/

/-- C1: `api_extract_content` raises its robots-disallow `HTTPException(403)`
inside the very `try` whose `except Exception` clause catches it
(main.py lines 66-79); the 403 is therefore constructed but swallowed, and
the extraction backend is still invoked.  At a concrete disallowed request
the handler returns the extraction result (HTTP 200), contradicting the
claim that the request terminates with a distinct policy rejection and no
backend invocation. -/
theorem robots_disallow_swallowed_extraction_proceeds :
    robotsBlockBody "https://example.com/" (.returns egDeniedDecision)
        = .error (.http 403
            ("Scraping not allowed by robots.txt for " ++ "https://example.com/")) ∧
    (api_extract_content true "https://example.com/" (.returns egDeniedDecision)
        (.returns egOkBody)).extractInvoked = true ∧
    (api_extract_content true "https://example.com/" (.returns egDeniedDecision)
        (.returns egOkBody)).response = .ok egOkBody :=
  ⟨rfl, rfl, rfl⟩

/-- C2: every result produced by the extraction pipeline — on the Playwright
path, the static path, and every failure/empty/fallback branch — carries a
`content` object with exactly the three fields `html`, `markdown`,
`raw_markdown`, each a string. -/
theorem extraction_content_always_three_string_fields (url : String)
    (selectors options : Option Dict) (pw : PwEnv) (cr : CrawlEnv) :
    contentOk (extract_content url selectors options pw cr).result.content = true := by
  simp only [extract_content]
  split
  · exact contentOk_playwright _ _ _ _
  · exact contentOk_static _ _ _ _

/-- C3 (counterexample): with `use_browser=False` and
`base_selector="main"`, `extract_content` does NOT hand the request to the
Playwright backend — the static Crawl4AI path produces the result
(`extraction_strategy = "markdown"`), because the escalation in
crawler.py lines 312-316 only sets `options['use_browser']=True` after the
dispatch of line 260 has already been decided. -/
theorem base_selector_without_use_browser_static_backend :
    (extract_content "https://example.com/"
        (some [("base_selector", Value.vstr "main")])
        (some [("use_browser", Value.vbool false)]) egPwEnv egCrawlEnvOk).usedPlaywright
        = false ∧
    (extract_content "https://example.com/"
        (some [("base_selector", Value.vstr "main")])
        (some [("use_browser", Value.vbool false)]) egPwEnv
        egCrawlEnvOk).result.metadata.get? "extraction_strategy"
        = some (Value.vstr "markdown") :=
  ⟨rfl, rfl⟩

/-- C3 (amended): the Dynamic (Playwright) backend produces the result
exactly when `options.get('use_browser', False)` is truthy at the moment
`extract_content` is entered; a present `base_selector` does not reroute
the current request. -/
theorem dynamic_backend_iff_use_browser (url : String)
    (selectors options : Option Dict) (pw : PwEnv) (cr : CrawlEnv) :
    (extract_content url selectors options pw cr).usedPlaywright
      = (Dict.getD (options.getD []) "use_browser" (.vbool false)).truthy := by
  simp only [extract_content]
  cases h : (Dict.getD (options.getD []) "use_browser" (.vbool false)).truthy <;>
    simp [h]

/-- C6: when fetching or parsing robots.txt fails for any reason,
`check_robots_txt` fails open — it reports `allowed=True` and attaches the
error message; the failure never blocks extraction. -/
theorem check_robots_txt_fail_open (url ua msg : String) :
    (check_robots_txt url ua (.raises msg)).allowed = true ∧
    (check_robots_txt url ua (.raises msg)).error = some msg :=
  ⟨rfl, rfl⟩

/-- C8: `can_proceed` is true iff the elapsed time since `last_access_time`
is at least the interval; immediately after `record_access` it is false
whenever the interval is positive, and it becomes true once the elapsed
time reaches the interval.  `RateLimiter.init` derives the interval as
`60 / requests_per_minute`. -/
theorem can_proceed_iff_elapsed_ge_interval (rl : RateLimiter) (t tn : ℚ)
    (hpos : 0 < rl.interval) :
    (∀ now, rl.can_proceed now = true ↔ rl.interval ≤ now - rl.last_access_time) ∧
    (∀ now, (rl.record_access t).can_proceed now = true ↔ rl.interval ≤ now - t) ∧
    ((rl.record_access t).can_proceed t = false) ∧
    (rl.interval ≤ tn - t → (rl.record_access t).can_proceed tn = true) ∧
    (∀ dom rpm, (RateLimiter.init dom rpm).interval = 60 / rpm) := by
  have hne : rl.interval ≠ 0 := ne_of_gt hpos
  have hint : (rl.record_access t).interval = rl.interval := by
    simp [RateLimiter.record_access, RateLimiter.init, div_div_cancel₀ (by norm_num : (60:ℚ) ≠ 0)]
  have hlast : (rl.record_access t).last_access_time = t := rfl
  refine ⟨fun now => ?_, fun now => ?_, ?_, ?_, fun dom rpm => rfl⟩
  · simp [RateLimiter.can_proceed]
  · simp [RateLimiter.can_proceed, hint, hlast]
  · simp [RateLimiter.can_proceed, hint, hlast]
    linarith
  · intro h
    simp [RateLimiter.can_proceed, hint, hlast]
    exact h

/-- C8 witness: a limiter for 10 requests/minute (interval 6) blocks at the
moment of access and allows again 6 time units later. -/
theorem can_proceed_iff_elapsed_ge_interval_witness :
    ((RateLimiter.init "example.com" 10).record_access 0).can_proceed 0 = false ∧
    ((RateLimiter.init "example.com" 10).record_access 0).can_proceed 6 = true := by
  have h := can_proceed_iff_elapsed_ge_interval (RateLimiter.init "example.com" 10) 0 6
    (by norm_num [RateLimiter.init])
  exact ⟨h.2.2.1, h.2.2.2.1 (by norm_num [RateLimiter.init])⟩

/-- C9: `record_access` returns a new state stamped with the current time
whose `domain` and `interval` agree with the input state's; the embedding is
a pure function on the state, mirroring the Python code, which builds a new
`RateLimiter` and never writes to `self`. -/
theorem record_access_returns_updated_copy (rl : RateLimiter) (now : ℚ)
    (_h : rl.interval ≠ 0) :
    (rl.record_access now).domain = rl.domain ∧
    (rl.record_access now).interval = rl.interval ∧
    (rl.record_access now).last_access_time = now := by
  refine ⟨rfl, ?_, rfl⟩
  simp [RateLimiter.record_access, RateLimiter.init,
    div_div_cancel₀ (by norm_num : (60:ℚ) ≠ 0)]

/-- C9 witness: recording an access at time 42 on a concrete limiter. -/
theorem record_access_returns_updated_copy_witness :
    ((RateLimiter.mk "example.com" 6 0).record_access 42).domain = "example.com" ∧
    ((RateLimiter.mk "example.com" 6 0).record_access 42).interval = 6 ∧
    ((RateLimiter.mk "example.com" 6 0).record_access 42).last_access_time = 42 :=
  record_access_returns_updated_copy (RateLimiter.mk "example.com" 6 0) 42 (by norm_num)

/-- The `extraction_strategy` the static path actually produces (amended C4):
`"crawl4ai"` on the crawl-raises, empty-results and falsy-first-result
paths, and on success `"schema"` exactly when a truthy `extraction_schema`
option was supplied and its extractor constructor succeeded, else
`"markdown"`. -/
def staticStrategySpec (opts : Dict) (cr : CrawlEnv) : String :=
  match cr.outcome with
  | .raises => "crawl4ai"
  | .results [] => "crawl4ai"
  | .results (none :: _) => "crawl4ai"
  | .results (some _ :: _) =>
      if (Dict.hasKey opts "extraction_schema" &&
          (Dict.getD opts "extraction_schema" Value.vnone).truthy) && cr.schemaCtorOk
      then "schema" else "markdown"

/-- C4 (counterexample): with `use_browser=False`, no selectors, and a crawl
that raises, the result's `extraction_strategy` is `"crawl4ai"` — not in
{`markdown`, `schema`} as the claim requires of the fetch-failure path. -/
theorem static_fetch_failure_strategy_crawl4ai :
    (extract_content "https://example.com/" none
        (some [("use_browser", Value.vbool false)]) egPwEnv
        egCrawlEnvRaises).result.metadata.get? "extraction_strategy"
        = some (Value.vstr "crawl4ai") ∧
    "crawl4ai" ≠ "markdown" ∧ "crawl4ai" ≠ "schema" :=
  ⟨rfl, by decide, by decide⟩

/-- C4 (amended): for requests with `use_browser` falsy and no truthy
`base_selector`, the static path's `extraction_strategy` is exactly
`staticStrategySpec`: `"schema"`/`"markdown"` on the success path
(`"schema"` iff a truthy `extraction_schema` was supplied and its extractor
was constructed), and `"crawl4ai"` on the crawl-failure, empty-results and
falsy-result paths. -/
theorem static_strategy_characterization (url : String) (sels opts : Dict)
    (pw : PwEnv) (cr : CrawlEnv)
    (hub : (Dict.getD opts "use_browser" (Value.vbool false)).truthy = false)
    (hbs : (Dict.getD sels "base_selector" Value.vnone).truthy = false) :
    (extract_content url (some sels) (some opts) pw cr).result.metadata.get?
        "extraction_strategy" = some (Value.vstr (staticStrategySpec opts cr)) := by
  have hb : hasBaseSelector sels = false := by
    simp [hasBaseSelector, hbs]
  obtain ⟨outcome, sOk, now⟩ := cr
  have hschema : staticStrategyIsSchema sels opts ⟨outcome, sOk, now⟩
      = ((Dict.hasKey opts "extraction_schema" &&
          (Dict.getD opts "extraction_schema" Value.vnone).truthy) && sOk) := by
    cases hK : (Dict.hasKey opts "extraction_schema" &&
        (Dict.getD opts "extraction_schema" Value.vnone).truthy) <;>
      simp [staticStrategyIsSchema, hb, hK]
  simp only [extract_content, Option.getD_some, hub, Bool.false_eq_true, if_false]
  simp only [staticResult, staticStrategySpec, hschema]
  cases outcome with
  | raises => rfl
  | results l =>
      cases l with
      | nil => rfl
      | cons hd tl =>
          cases hd with
          | none => rfl
          | some r =>
              cases hK : (Dict.hasKey opts "extraction_schema" &&
                  (Dict.getD opts "extraction_schema" Value.vnone).truthy) <;>
                cases hOk : sOk <;> simp [hK, hOk, Value.get?, Dict.find?]

/-- C4 witness: a crawl failure with `use_browser=False` and no selectors
lands on the `"crawl4ai"` branch of the characterization. -/
theorem static_strategy_characterization_witness :
    (extract_content "https://example.com/" (some [])
        (some [("use_browser", Value.vbool false)]) egPwEnv
        egCrawlEnvRaises).result.metadata.get? "extraction_strategy"
        = some (Value.vstr (staticStrategySpec
            [("use_browser", Value.vbool false)] egCrawlEnvRaises)) :=
  static_strategy_characterization "https://example.com/" []
    [("use_browser", Value.vbool false)] egPwEnv egCrawlEnvRaises rfl rfl

/-- C5 (counterexample): for the URL `https://httpbin.org/html`, a browser
launch failure does NOT yield empty content strings — the fallback response
hardcodes the Moby-Dick test content (crawler.py lines 199-219). -/
theorem launch_failure_httpbin_content_nonempty :
    (extract_content_playwright "https://httpbin.org/html" [] []
        { egPwEnv with launchOk := false }).result.content.get? "markdown"
        = some (Value.vstr "Herman Melville - Moby-Dick") ∧
    "Herman Melville - Moby-Dick" ≠ "" :=
  ⟨rfl, by decide⟩

/-- C5 (amended): for every URL that does not contain `httpbin.org/html`,
a browser-launch failure or an unhandled exception in the Playwright
pipeline returns (rather than raising) the degraded fallback: all three
content strings empty and `extraction_strategy = "playwright"`.  URLs
containing `httpbin.org/html` instead receive the hardcoded non-empty
test-compatibility fallback (same strategy tag). -/
theorem playwright_failure_degraded_result (url : String)
    (selectors options : Dict) (pw : PwEnv)
    (hurl : strContains url "httpbin.org/html" = false)
    (hfail : pw.launchOk = false ∨ pw.unhandled = true) :
    (extract_content_playwright url selectors options pw).result.content
        = mkPwContent "" "" ∧
    (extract_content_playwright url selectors options pw).result.metadata.get?
        "extraction_strategy" = some (Value.vstr "playwright") := by
  have hfb : extract_content_playwright url selectors options pw
      = { result := create_fallback_response url pw.now, fallbackTagQueried := false } := by
    rcases hfail with h | h
    · simp [extract_content_playwright, h]
    · cases hl : pw.launchOk <;> simp [extract_content_playwright, h, hl]
  rw [hfb]
  constructor
  · simp [create_fallback_response, hurl, mkPwContent]
  · simp [create_fallback_response, hurl, Value.get?, Dict.find?]

/-- C5 witness: launch failure on a non-httpbin URL produces the all-empty
degraded result tagged `playwright`. -/
theorem playwright_failure_degraded_result_witness :
    (extract_content_playwright "https://example.com/" [] []
        { egPwEnv with launchOk := false }).result.content = mkPwContent "" "" ∧
    (extract_content_playwright "https://example.com/" [] []
        { egPwEnv with launchOk := false }).result.metadata.get?
        "extraction_strategy" = some (Value.vstr "playwright") :=
  playwright_failure_degraded_result "https://example.com/" [] []
    { egPwEnv with launchOk := false } rfl (Or.inl rfl)

/-- C7 (counterexample): `base_selector="div"` is a simple tag name and
matches zero elements on `egPage`, yet no direct fallback query for that
tag is attempted — the code's zero-match tag fallback (crawler.py
lines 146-149) fires only for `h1`.  The full-page HTML fallback itself
does happen. -/
theorem selector_miss_no_fallback_query_for_div :
    (extract_content_playwright "https://example.com/"
        [("base_selector", Value.vstr "div")] [] egPwEnv).fallbackTagQueried = false ∧
    egPage.query "div" = none ∧
    (extract_content_playwright "https://example.com/"
        [("base_selector", Value.vstr "div")] [] egPwEnv).result.content.get? "html"
        = some (Value.vstr egPage.fullContent) :=
  ⟨rfl, rfl, rfl⟩

/-- C7 (amended): on a non-httpbin URL, when the base selector matches zero
elements (and, if the selector lowercases to `h1`, so does the literal `h1`
query), the Playwright result falls back to full-page HTML in
`content.html`, `extracted_data` is null, no exception is raised, and the
direct fallback tag query is attempted exactly when the selector is `h1`
(case-insensitively) — not for other simple tag names. -/
theorem selector_miss_falls_back_to_full_page (url : String)
    (selectors options : Dict) (s : String) (pw : PwEnv)
    (hurl : strContains url "httpbin.org/html" = false)
    (hl : pw.launchOk = true) (hu : pw.unhandled = false)
    (hsr : pw.selectorRaises = false)
    (hfind : Dict.find? selectors "base_selector" = some (Value.vstr s))
    (hs : s ≠ "")
    (hq : pw.page.query s = none)
    (hq1 : (strLower s) = "h1" → pw.page.query "h1" = none) :
    (extract_content_playwright url selectors options pw).result.content.get? "html"
        = some (Value.vstr pw.page.fullContent) ∧
    (extract_content_playwright url selectors options pw).result.extracted_data
        = Value.vnone ∧
    (extract_content_playwright url selectors options pw).fallbackTagQueried
        = ((strLower s) == "h1") := by
  have hsb : (s != "") = true := bne_iff_ne.mpr hs
  have hphase : pwPhase url (some s) pw.page pw.selectorRaises
      = (pw.page.fullContent, "", (strLower s) == "h1") := by
    cases hh : ((strLower s) == "h1") with
    | true =>
        have hlow : (strLower s) = "h1" := eq_of_beq hh
        simp [pwPhase, hurl, hsb, hsr, hq, hh, hq1 hlow]
    | false => simp [pwPhase, hurl, hsb, hsr, hq, hh]
  simp only [extract_content_playwright, hl, hu, Bool.not_true, Bool.false_eq_true,
    if_false, hfind]
  simp only [hphase]
  refine ⟨?_, ?_, ?_⟩
  · simp [mkPwContent, Value.get?, Dict.find?]
  · simp
  · trivial

/-- C7 witness: selector `h1` matching nothing on `egPage` — full-page
fallback, null `extracted_data`, and the `h1` tag fallback query attempted. -/
theorem selector_miss_falls_back_to_full_page_witness :
    (extract_content_playwright "https://example.com/"
        [("base_selector", Value.vstr "h1")] [] egPwEnv).result.content.get? "html"
        = some (Value.vstr egPage.fullContent) ∧
    (extract_content_playwright "https://example.com/"
        [("base_selector", Value.vstr "h1")] [] egPwEnv).result.extracted_data
        = Value.vnone ∧
    (extract_content_playwright "https://example.com/"
        [("base_selector", Value.vstr "h1")] [] egPwEnv).fallbackTagQueried
        = ((strLower "h1") == "h1") :=
  selector_miss_falls_back_to_full_page "https://example.com/"
    [("base_selector", Value.vstr "h1")] [] "h1" egPwEnv rfl rfl rfl rfl rfl
    (by decide) rfl (fun _ => rfl)

/-- C10: calling `extract_content` with a caller-supplied options dict whose
`use_browser` is `False` and a selectors dict with a truthy `base_selector`
mutates the caller's options object in place: after the call the caller
observes `options['use_browser'] == True` and
`options['use_direct_extraction'] == True` (crawler.py lines 256, 312-316;
`options or {}` aliases the caller's non-empty dict). -/
theorem extract_content_mutates_caller_options (url : String) (sels opts : Dict)
    (pw : PwEnv) (cr : CrawlEnv)
    (hub : Dict.find? opts "use_browser" = some (Value.vbool false))
    (hbs : (Dict.getD sels "base_selector" Value.vnone).truthy = true) :
    ((extract_content url (some sels) (some opts) pw cr).callerOptions.bind
        (fun d => Dict.find? d "use_browser")) = some (Value.vbool true) ∧
    ((extract_content url (some sels) (some opts) pw cr).callerOptions.bind
        (fun d => Dict.find? d "use_direct_extraction")) = some (Value.vbool true) := by
  have hcond : (Dict.getD opts "use_browser" (Value.vbool false)).truthy = false := by
    simp [Dict.getD, hub, Value.truthy]
  have hne : opts.isEmpty = false := Dict.find?_isSome_ne_nil opts _ _ hub
  have hfind : ∃ v, Dict.find? sels "base_selector" = some v ∧ v.truthy = true := by
    cases hf : Dict.find? sels "base_selector" with
    | none => simp [Dict.getD, hf, Value.truthy] at hbs
    | some v => exact ⟨v, rfl, by simpa [Dict.getD, hf] using hbs⟩
  obtain ⟨v, hf, hv⟩ := hfind
  have hselsne : sels.isEmpty = false := Dict.find?_isSome_ne_nil sels _ _ hf
  have hhbs : hasBaseSelector sels = true := by
    simp [hasBaseSelector, hselsne, hf, Dict.getD, hv]
  have hcaller : (extract_content url (some sels) (some opts) pw cr).callerOptions
      = some (Dict.set (Dict.set opts "use_browser" (Value.vbool true))
          "use_direct_extraction" (Value.vbool true)) := by
    simp [extract_content, hcond, hne, staticOptions, hhbs]
  rw [hcaller]
  constructor
  · simp only [Option.some_bind]
    rw [Dict.find?_set_ne _ _ _ _ (by rfl), Dict.find?_set_self]
  · simp only [Option.some_bind]
    rw [Dict.find?_set_self]

/-- C10 witness: the mutation observed on a concrete options dict. -/
theorem extract_content_mutates_caller_options_witness :
    ((extract_content "https://example.com/"
        (some [("base_selector", Value.vstr "main")])
        (some [("use_browser", Value.vbool false)]) egPwEnv
        egCrawlEnvOk).callerOptions.bind
        (fun d => Dict.find? d "use_browser")) = some (Value.vbool true) ∧
    ((extract_content "https://example.com/"
        (some [("base_selector", Value.vstr "main")])
        (some [("use_browser", Value.vbool false)]) egPwEnv
        egCrawlEnvOk).callerOptions.bind
        (fun d => Dict.find? d "use_direct_extraction")) = some (Value.vbool true) :=
  extract_content_mutates_caller_options "https://example.com/"
    [("base_selector", Value.vstr "main")] [("use_browser", Value.vbool false)]
    egPwEnv egCrawlEnvOk rfl rfl

end WebInsight
